import Mathlib

/-!
# XtreemFS: client fault classes and the `lsfs.xtreemfs` volume-listing tool

A shallow embedding of

* `cpp/include/libxtreemfs/xtreemfs_exception.h` (namespace `xtreemfs`), and
* `src/lsfs.xtreemfs/lsfs.xtreemfs.cpp` (namespace `lsfs_xtreemfs`).

Conventions of the embedding.

* A `std::string` is a `String`; every `Char` stands for one C++ `char`, so
  `size()` is `String.length` and `operator+` / `operator<<` on strings is `++`.
* A `const char*` is a position in a NUL-terminated buffer.  Converting it to a
  `std::string` copies the chars up to, not including, the first NUL.
* A member function that mutates the object and may throw returns the outcome
  together with the object as it is left behind.
-/

/-! ## C strings -/

/-- The buffer behind `s.c_str()` and behind a string literal: the chars of `s`
followed by the terminating NUL. -/
def c_str (s : String) : List Char := s.data ++ ['\x00']

/-- The conversion `std::string(p + offset)` where `p` points at the first char of
the NUL-terminated buffer `buf`.  While `offset` stays inside the buffer the result
is the text from there up to the first NUL.  An offset outside the buffer is an
out-of-bounds pointer, whose use is undefined: `none`. -/
def string_from_ptr (buf : List Char) (offset : Nat) : Option String :=
  if offset < buf.length then
    some (String.mk ((buf.drop offset).takeWhile (fun c => c ≠ '\x00')))
  else
    none

/-- The text `std::endl` inserts into a stream. -/
def endl : String := "\n"

/-! ## `xtreemfs_exception.h` -/

namespace xtreemfs

/-- The class `XtreemFSException : public std::runtime_error`; `what` is the message
handed to `std::runtime_error`. -/
structure XtreemFSException where
  what : String
deriving DecidableEq

/-- The class `PosixErrorException`. -/
structure PosixErrorException extends XtreemFSException where
  posix_errno_ : Int
deriving DecidableEq

/-- The constructor `PosixErrorException(int posix_errno, const std::string& msg)`. -/
def PosixErrorException.new (posix_errno : Int) (msg : String) : PosixErrorException :=
  { what := msg, posix_errno_ := posix_errno }

/-- The accessor `int posix_errno() const`. -/
def PosixErrorException.posix_errno (e : PosixErrorException) : Int := e.posix_errno_

/-- The class `FileInfoNotFoundException`. -/
structure FileInfoNotFoundException extends XtreemFSException
deriving DecidableEq

/-- The string literal in the constructor of `FileInfoNotFoundException` (two adjacent
literals, which the compiler joins). -/
def FileInfoNotFoundException.literal : String :=
  "The FileInfo object was not found in the OpenFileTable" ++ " for the FileId: "

/-- The constructor `FileInfoNotFoundException(boost::uint64_t file_id)`.  Its message
expression is `"..." + file_id`: the literal decays to `const char*`, so `+` is pointer
arithmetic by `file_id` chars, and the resulting pointer is converted to the
`std::string` the base class takes.  `none` where that is undefined. -/
def FileInfoNotFoundException.new (file_id : Nat) : Option FileInfoNotFoundException :=
  match string_from_ptr (c_str FileInfoNotFoundException.literal) (file_id % 2 ^ 64) with
  | some msg => some { what := msg }
  | none => none

/-- The class `AddressToUUIDNotFoundException`. -/
structure AddressToUUIDNotFoundException extends XtreemFSException
deriving DecidableEq

/-- The constructor `AddressToUUIDNotFoundException(const std::string& uuid)`. -/
def AddressToUUIDNotFoundException.new (uuid : String) : AddressToUUIDNotFoundException :=
  { what := "Address for UUID not found: " ++ uuid }

/-- The class `VolumeNotFoundException`. -/
structure VolumeNotFoundException extends XtreemFSException
deriving DecidableEq

/-- The constructor `VolumeNotFoundException(const std::string& volume_name)`. -/
def VolumeNotFoundException.new (volume_name : String) : VolumeNotFoundException :=
  { what := "Volume not found: " ++ volume_name }

/-- The class `ReplicationRedirectionException`, with its public member
`redirect_to_server_uuid_`. -/
structure ReplicationRedirectionException extends XtreemFSException where
  redirect_to_server_uuid_ : String
deriving DecidableEq

/-- The constructor `ReplicationRedirectionException(const std::string& redirect_uuid)`. -/
def ReplicationRedirectionException.new (redirect_uuid : String) :
    ReplicationRedirectionException :=
  { what := "ReplicationRedirectionException thrown (libxtreemfs " ++
      "internal use only - should not have shown up",
    redirect_to_server_uuid_ := redirect_uuid }

/-- The class `InvalidCommandLineParametersException`. -/
structure InvalidCommandLineParametersException extends XtreemFSException
deriving DecidableEq

/-- The constructor `InvalidCommandLineParametersException(const std::string& msg)`. -/
def InvalidCommandLineParametersException.new (msg : String) :
    InvalidCommandLineParametersException :=
  { what := msg }

end xtreemfs

/-! ## `lsfs.xtreemfs.cpp` -/

namespace lsfs_xtreemfs

/-- The C++ exception values that can leave a member function of `Main`.  The tool
itself throws `YIELD::platform::Exception`; the collaborators it calls may throw
that or a class of `xtreemfs_exception.h`. -/
inductive Thrown where
  | YIELD_platform_Exception (what : String)
  | InvalidCommandLineParametersException (e : xtreemfs.InvalidCommandLineParametersException)
  | XtreemFSException (e : xtreemfs.XtreemFSException)
deriving DecidableEq

/-- How a call ends: it returns a value, it throws, or its behaviour is undefined. -/
inductive Outcome (α : Type) where
  | returned (a : α)
  | thrown (e : Thrown)
  | undefined
deriving DecidableEq

/-- Modelled from the spec: the class `YIELD::ipc::URI` is declared outside the
source; section 4.5 describes a parsed URL with a resource path, which is the one
part of it the tool reads (`get_resource()`). -/
structure URI where
  resource : String
deriving DecidableEq

/-- The accessor `get_resource()`. -/
def URI.get_resource (uri : URI) : String := uri.resource

/-- Modelled from the spec: the class `org::xtreemfs::interfaces::Volume` is declared
outside the source; scenario B lists its fields name, id, owner, group and mode,
here under the names of the accessors `_main` calls.  The mode is a 32-bit unsigned
number. -/
structure Volume where
  name : String
  id : String
  owner_user_id : String
  owner_group_id : String
  mode : Nat
deriving DecidableEq

/-- The type `org::xtreemfs::interfaces::VolumeSet`, a sequence of volumes traversed
from `begin()` to `end()`. -/
abbrev VolumeSet := List Volume

/-- The data members of `class Main`. -/
structure Main where
  long_listing : Bool
  mrc_uri : Option URI
  volume_name : String
deriving DecidableEq

/-- The constructor `Main()`: `mrc_uri` is a null `auto_URI`, `volume_name` an empty
string, and the body sets `long_listing = false`. -/
def Main.new : Main :=
  { long_listing := false, mrc_uri := none, volume_name := "" }

/-- The text `operator<<` writes for an unsigned integer: its decimal digits. -/
def ostream_unsigned (n : Nat) : String := Nat.repr n

/-- The body of the loop over the volumes in `_main`: the text of `volume_str` that is
written to `std::cout` for one volume. -/
def Main.volume_str (long_listing : Bool) (volume_i : Volume) : String :=
  let volume_str : String := ""
  if long_listing then
    let volume_str := volume_str ++ "Volume '" ++ volume_i.name ++ "'" ++ endl
    let volume_str_len := volume_str.length
    let volume_str := (List.range volume_str_len).foldl
      (fun (volume_str : String) (_dash_i : Nat) => volume_str.push '-') volume_str
    let volume_str := volume_str ++ endl
    let volume_str := volume_str ++ "\tID:       " ++ volume_i.id ++ endl
    let volume_str := volume_str ++ "\tOwner:    " ++ volume_i.owner_user_id ++ endl
    let volume_str := volume_str ++ "\tGroup:    " ++ volume_i.owner_group_id ++ endl
    let volume_str := volume_str ++ "\tAccess:   " ++ ostream_unsigned volume_i.mode ++ endl
    let volume_str := volume_str ++ endl
    volume_str
  else
    volume_str ++ volume_i.name ++ "  ->  " ++ volume_i.id ++ endl

/-- The member function `int _main( int, char** )`.  `xtreemfs_lsvol` stands for the remote
call `createMRCProxy( *mrc_uri )->xtreemfs_lsvol( volumes )`, which fills `volumes` or
throws.  The result is the outcome together with the text written to `std::cout`. -/
def Main._main (xtreemfs_lsvol : URI → Except Thrown VolumeSet) (self : Main) :
    Outcome Int × String :=
  match self.mrc_uri with
  | none => (Outcome.undefined, "")
  | some uri =>
    match xtreemfs_lsvol uri with
    | Except.error e => (Outcome.thrown e, "")
    | Except.ok volumes =>
      (Outcome.returned 0,
        volumes.foldl (fun (cout : String) (volume_i : Volume) =>
          cout ++ Main.volume_str self.long_listing volume_i) "")

/-- The member function `void parseFiles( int files_count, char** files )`, with
`files_count = files.length`.  `parseURI` stands for the inherited `parseURI`, which
returns the parsed URI or throws. -/
def Main.parseFiles (parseURI : String → Except Thrown URI) (files : List String)
    (self : Main) : Outcome Unit × Main :=
  match files with
  | files_0 :: _ =>
    match parseURI files_0 with
    | Except.error e => (Outcome.thrown e, self)
    | Except.ok uri =>
      let self := { self with mrc_uri := some uri }
      if uri.get_resource.length > 1 then
        match string_from_ptr (c_str uri.get_resource) 1 with
        | some text => (Outcome.returned (), { self with volume_name := text })
        | none => (Outcome.undefined, self)
      else
        (Outcome.returned (), self)
  | [] =>
    (Outcome.thrown (Thrown.YIELD_platform_Exception "must specify an MRC URI"), self)

end lsfs_xtreemfs

/-! ## Sample data -/

/-- The volume of scenarios B and C: mode 0755 is octal, 493 in decimal. -/
def vol1 : lsfs_xtreemfs.Volume :=
  { name := "vol1", id := "abc", owner_user_id := "u", owner_group_id := "g", mode := 0o755 }

/-- A stand-in for the URI parser that takes the whole location as the resource path. -/
def sample_parseURI (location : String) : Except lsfs_xtreemfs.Thrown lsfs_xtreemfs.URI :=
  Except.ok { resource := location }

/-- A stand-in for the remote call that answers with the one volume `vol1`. -/
def sample_lsvol (_uri : lsfs_xtreemfs.URI) :
    Except lsfs_xtreemfs.Thrown lsfs_xtreemfs.VolumeSet :=
  Except.ok [vol1]

/-- The digit loop never shortens its accumulator. -/
theorem toDigitsCore_length_ge (b : Nat) :
    ∀ (fuel n : Nat) (ds : List Char), ds.length ≤ (Nat.toDigitsCore b fuel n ds).length := by
  intro fuel
  induction fuel with
  | zero => intro n ds; simp [Nat.toDigitsCore]
  | succ f ih =>
    intro n ds
    simp only [Nat.toDigitsCore]
    split
    · simp
    · exact Nat.le_trans (by simp) (ih (n / b) (Nat.digitChar (n % b) :: ds))

/-- A decimal representation has at least one digit. -/
theorem repr_length_pos (n : Nat) : 0 < (Nat.repr n).length := by
  simp only [Nat.repr, Nat.toDigits, Nat.toDigitsCore, List.asString, String.length]
  split
  · simp
  · exact Nat.lt_of_lt_of_le (by simp) (toDigitsCore_length_ge 10 n (n / 10) [Nat.digitChar (n % 10)])

/-- Reading a NUL-terminated buffer stops at the terminator at the latest. -/
theorem takeWhile_nul_length_le (l : List Char) :
    ((l ++ ['\x00']).takeWhile (fun c => c ≠ '\x00')).length ≤ l.length := by
  induction l with
  | nil => simp
  | cons a t ih =>
    simp only [ne_eq, decide_not] at ih
    simp only [List.cons_append, List.takeWhile_cons, ne_eq, decide_not]
    split
    · simpa using ih
    · simp

/-- A string read from inside the buffer of `text` is no longer than `text`. -/
theorem string_from_ptr_c_str_length_le (text : String) (offset : Nat) (s : String)
    (h : string_from_ptr (c_str text) offset = some s) : s.length ≤ text.length := by
  unfold string_from_ptr c_str at h
  split at h
  · rename_i hlt
    cases h
    have hle : offset ≤ text.data.length := by
      simp only [List.length_append, List.length_singleton] at hlt
      omega
    rw [List.drop_append_of_le_length hle]
    have h1 := takeWhile_nul_length_le (List.drop offset text.data)
    have h2 : (List.drop offset text.data).length = text.data.length - offset :=
      List.length_drop _ _
    simp only [String.length]
    omega
  · cases h

/-- A loop that pushes the char `c` once per iteration appends that many copies of `c`. -/
theorem foldl_push (c : Char) :
    ∀ (l : List Nat) (s : String),
      l.foldl (fun (acc : String) (_i : Nat) => acc.push c) s
        = s ++ String.mk (List.replicate l.length c) := by
  intro l
  induction l with
  | nil => intro s; apply String.ext; simp
  | cons a t ih =>
    intro s
    rw [List.foldl_cons, ih]
    apply String.ext
    simp [String.push, List.replicate_succ]

/-- A loop that appends `f a` for each element in turn appends the joined texts. -/
theorem foldl_append_eq_join {α : Type} (f : α → String) :
    ∀ (l : List α) (acc : String),
      l.foldl (fun (cout : String) (a : α) => cout ++ f a) acc = acc ++ String.join (l.map f) := by
  intro l
  induction l with
  | nil => intro acc; apply String.ext; simp
  | cons a t ih =>
    intro acc
    rw [List.foldl_cons, ih]
    apply String.ext
    simp

/-- Reading the buffer of a text without NUL gives the text back. -/
theorem takeWhile_not_nul (l : List Char) (h : '\x00' ∉ l) :
    (l ++ ['\x00']).takeWhile (fun c => c ≠ '\x00') = l := by
  induction l with
  | nil => simp
  | cons a t ih =>
    have ha : a ≠ '\x00' := fun e => h (by simp [e])
    have ht : '\x00' ∉ t := fun e => h (by simp [e])
    have ih2 := ih ht
    simp only [ne_eq, decide_not] at ih2
    simp [List.takeWhile_cons, ha, ih2]

/-- The text written for one volume when long listing is on. -/
theorem volume_str_long_eq (volume_i : lsfs_xtreemfs.Volume) :
    lsfs_xtreemfs.Main.volume_str true volume_i
      = "Volume '" ++ volume_i.name ++ "'" ++ "\n"
        ++ String.mk (List.replicate (("Volume '" ++ volume_i.name ++ "'").length + 1) '-') ++ "\n"
        ++ "\tID:       " ++ volume_i.id ++ "\n"
        ++ "\tOwner:    " ++ volume_i.owner_user_id ++ "\n"
        ++ "\tGroup:    " ++ volume_i.owner_group_id ++ "\n"
        ++ "\tAccess:   " ++ Nat.repr volume_i.mode ++ "\n"
        ++ "\n" := by
  have hlen : ∀ s : String, (s ++ "\n").length = s.length + 1 := by
    intro s
    rw [String.length_append]
    rfl
  simp only [lsfs_xtreemfs.Main.volume_str, if_true, foldl_push, List.length_range, endl,
    lsfs_xtreemfs.ostream_unsigned, String.empty_append, hlen]

/-- The text written for one volume when long listing is off. -/
theorem volume_str_short_eq (volume_i : lsfs_xtreemfs.Volume) :
    lsfs_xtreemfs.Main.volume_str false volume_i
      = volume_i.name ++ "  ->  " ++ volume_i.id ++ "\n" := by
  simp only [lsfs_xtreemfs.Main.volume_str, endl, String.empty_append]
  rfl

/-- When the URI is set and the remote call answers, `_main` returns 0 and writes the
texts of the volumes one after the other. -/
theorem main_returned
    (xtreemfs_lsvol : lsfs_xtreemfs.URI → Except lsfs_xtreemfs.Thrown lsfs_xtreemfs.VolumeSet)
    (self : lsfs_xtreemfs.Main) (uri : lsfs_xtreemfs.URI) (volumes : lsfs_xtreemfs.VolumeSet)
    (huri : self.mrc_uri = some uri) (hvolumes : xtreemfs_lsvol uri = Except.ok volumes) :
    lsfs_xtreemfs.Main._main xtreemfs_lsvol self
      = (lsfs_xtreemfs.Outcome.returned 0,
          String.join (volumes.map (lsfs_xtreemfs.Main.volume_str self.long_listing))) := by
  simp only [lsfs_xtreemfs.Main._main, huri, hvolumes, foldl_append_eq_join, String.empty_append]

/-- For a text of more than one char without NUL, `c_str() + 1` reads the text without
its first char. -/
theorem string_from_ptr_c_str_one (text : String) (hlen : text.length > 1)
    (hnul : '\x00' ∉ text.data) :
    string_from_ptr (c_str text) 1 = some (text.drop 1) := by
  have hdata : text.data.length > 1 := hlen
  have hlt : 1 < (c_str text).length := by
    simp only [c_str, List.length_append, List.length_singleton]
    omega
  have hle : 1 ≤ text.data.length := by omega
  have hnul_tail : '\x00' ∉ List.drop 1 text.data := fun hmem => hnul (List.mem_of_mem_drop hmem)
  simp only [string_from_ptr, hlt, if_true]
  simp only [c_str]
  rw [List.drop_append_of_le_length hle, takeWhile_not_nul _ hnul_tail, String.drop_eq]

/-! ## The fault classes -/

/-- C1, which the code does not meet: the message expression of
`FileInfoNotFoundException(file_id)` moves a pointer `file_id` chars into the literal
instead of appending decimal digits.  For `file_id = 5` the message is the literal
without its first five chars and without any id, and for no `file_id` at all is the
message the literal followed by the decimal representation of `file_id`. -/
theorem FileInfoNotFoundException_message_lacks_file_id :
    (xtreemfs.FileInfoNotFoundException.new 5).map (fun e => e.what)
        = some "ileInfo object was not found in the OpenFileTable for the FileId: "
    ∧ ∀ file_id : Nat,
        (xtreemfs.FileInfoNotFoundException.new file_id).map (fun e => e.what)
          ≠ some ("The FileInfo object was not found in the OpenFileTable for the FileId: "
                    ++ Nat.repr file_id) := by
  refine ⟨by decide, ?_⟩
  intro file_id h
  unfold xtreemfs.FileInfoNotFoundException.new at h
  cases hsp : string_from_ptr (c_str xtreemfs.FileInfoNotFoundException.literal)
      (file_id % 2 ^ 64) with
  | none =>
    rw [hsp] at h
    simp at h
  | some msg =>
    rw [hsp] at h
    simp only [Option.map_some', Option.some.injEq] at h
    have hle := string_from_ptr_c_str_length_le _ _ _ hsp
    have hpos := repr_length_pos file_id
    have hlit : xtreemfs.FileInfoNotFoundException.literal.length = 71 := by decide
    have hlen : msg.length = 71 + (Nat.repr file_id).length := by
      rw [h, String.length_append]
      rfl
    omega

/-- C8 as stated fails: the constructor of `ReplicationRedirectionException` accepts
the empty string and stores it, so not every value has a non-empty target uuid. -/
theorem ReplicationRedirectionException_empty_uuid :
    ¬ ∀ redirect_uuid : String,
        (xtreemfs.ReplicationRedirectionException.new redirect_uuid).redirect_to_server_uuid_
          ≠ "" := by
  intro h
  exact h "" rfl

/-- C8 as amended: the stored `redirect_to_server_uuid_` is the constructor argument
itself, so it is non-empty exactly when the argument is; the message is the fixed
internal-use text. -/
theorem ReplicationRedirectionException_stores_argument :
    ∀ redirect_uuid : String,
      (xtreemfs.ReplicationRedirectionException.new redirect_uuid).redirect_to_server_uuid_
          = redirect_uuid
      ∧ ((xtreemfs.ReplicationRedirectionException.new redirect_uuid).redirect_to_server_uuid_
            ≠ "" ↔ redirect_uuid ≠ "")
      ∧ (xtreemfs.ReplicationRedirectionException.new redirect_uuid).what
          = "ReplicationRedirectionException thrown (libxtreemfs internal use only - should not have shown up" := by
  intro redirect_uuid
  refine ⟨rfl, Iff.rfl, ?_⟩
  simp only [xtreemfs.ReplicationRedirectionException.new]
  decide

/-- C9 as stated fails: whatever set of positive numbers is taken as the recognized
POSIX error numbers, some constructible `PosixErrorException` has a `posix_errno()`
outside it (the constructor accepts 0 and negative numbers as well). -/
theorem PosixErrorException_errno_unchecked :
    ¬ ∃ recognized : Int → Prop,
        (∀ n : Int, recognized n → 0 < n)
        ∧ ∀ (posix_errno : Int) (msg : String),
            recognized (xtreemfs.PosixErrorException.new posix_errno msg).posix_errno := by
  rintro ⟨recognized, hpos, hall⟩
  have h := hpos _ (hall (-1) "")
  simp [xtreemfs.PosixErrorException.new, xtreemfs.PosixErrorException.posix_errno] at h

/-- C9 as amended: `posix_errno()` of a constructed `PosixErrorException` is the
number given to the constructor, whatever that number is, and the message is the one
given. -/
theorem PosixErrorException_errno_is_argument :
    ∀ (posix_errno : Int) (msg : String),
      (xtreemfs.PosixErrorException.new posix_errno msg).posix_errno = posix_errno
      ∧ (xtreemfs.PosixErrorException.new posix_errno msg).what = msg := by
  intro posix_errno msg
  exact ⟨rfl, rfl⟩

/-! ## The listing tool -/

/-- C2, which the code does not meet: `volume_str_len` is taken after `std::endl` has
been written, so the underline has one dash more than the header text
`Volume '<name>'` has chars; for the name "vol1" the header has 13 chars and the
underline 14 dashes. -/
theorem volume_str_underline_one_longer :
    lsfs_xtreemfs.Main.volume_str true vol1
        = "Volume 'vol1'\n--------------\n\tID:       abc\n\tOwner:    u\n\tGroup:    g\n\tAccess:   493\n\n"
    ∧ ("Volume 'vol1'").length = 13
    ∧ ("--------------").length = 14
    ∧ ∀ volume_i : lsfs_xtreemfs.Volume,
        ∃ rest : String,
          lsfs_xtreemfs.Main.volume_str true volume_i
            = "Volume '" ++ volume_i.name ++ "'" ++ "\n"
              ++ String.mk
                  (List.replicate (("Volume '" ++ volume_i.name ++ "'").length + 1) '-')
              ++ "\n" ++ rest := by
  refine ⟨by decide, by decide, by decide, ?_⟩
  intro volume_i
  refine ⟨"\tID:       " ++ volume_i.id ++ "\n"
        ++ "\tOwner:    " ++ volume_i.owner_user_id ++ "\n"
        ++ "\tGroup:    " ++ volume_i.owner_group_id ++ "\n"
        ++ "\tAccess:   " ++ Nat.repr volume_i.mode ++ "\n"
        ++ "\n", ?_⟩
  rw [volume_str_long_eq]
  simp only [String.append_assoc]

/-- C3 as stated fails: in the short listing of the single volume with name "vol1"
and id "abc" the text between the name and the id is not five chars long. -/
theorem short_listing_separator_not_five_chars :
    ¬ ∃ separator : String,
        separator.length = 5
        ∧ (lsfs_xtreemfs.Main._main sample_lsvol
              { long_listing := false, mrc_uri := some { resource := "/" }, volume_name := "" }).2
            = "vol1" ++ separator ++ "abc" ++ "\n" := by
  rintro ⟨separator, hlen, h⟩
  have hout : (lsfs_xtreemfs.Main._main sample_lsvol
      { long_listing := false, mrc_uri := some { resource := "/" }, volume_name := "" }).2
        = "vol1  ->  abc\n" := by decide
  rw [hout] at h
  have hl := congrArg String.length h
  simp only [String.length_append, hlen] at hl
  revert hl
  decide

/-- C3 as amended: when long listing is off and the service returns `volumes`, `_main`
returns 0 and writes to the standard output one line per volume, in the order of the
set, each line being the name, then the six chars "  ->  " (two spaces, '-', '>', two
spaces), then the id, then the line end, and nothing else; for an empty set nothing
is written, and for the single volume "vol1" with id "abc" the output is
"vol1  ->  abc" with the line end. -/
theorem short_listing_output
    (xtreemfs_lsvol : lsfs_xtreemfs.URI → Except lsfs_xtreemfs.Thrown lsfs_xtreemfs.VolumeSet)
    (self : lsfs_xtreemfs.Main) (uri : lsfs_xtreemfs.URI) (volumes : lsfs_xtreemfs.VolumeSet)
    (hshort : self.long_listing = false) (huri : self.mrc_uri = some uri)
    (hvolumes : xtreemfs_lsvol uri = Except.ok volumes) :
    lsfs_xtreemfs.Main._main xtreemfs_lsvol self
        = (lsfs_xtreemfs.Outcome.returned 0,
            String.join (volumes.map (fun volume_i =>
              volume_i.name ++ "  ->  " ++ volume_i.id ++ "\n")))
    ∧ "  ->  " = String.mk [' ', ' ', '-', '>', ' ', ' ']
    ∧ (volumes = [] →
        lsfs_xtreemfs.Main._main xtreemfs_lsvol self = (lsfs_xtreemfs.Outcome.returned 0, ""))
    ∧ (volumes = [vol1] →
        lsfs_xtreemfs.Main._main xtreemfs_lsvol self
          = (lsfs_xtreemfs.Outcome.returned 0, "vol1  ->  abc\n")) := by
  have hmain := main_returned xtreemfs_lsvol self uri volumes huri hvolumes
  rw [hshort] at hmain
  have hfun : lsfs_xtreemfs.Main.volume_str false
      = fun volume_i => volume_i.name ++ "  ->  " ++ volume_i.id ++ "\n" := by
    funext volume_i
    exact volume_str_short_eq volume_i
  rw [hfun] at hmain
  refine ⟨hmain, by decide, ?_, ?_⟩
  · intro hnil
    rw [hmain, hnil]
    rfl
  · intro hone
    rw [hmain, hone]
    decide

/-- The theorem `short_listing_output` applied to a service that returns the volume of
scenario B. -/
theorem short_listing_output_witness :
    lsfs_xtreemfs.Main._main sample_lsvol
        { long_listing := false, mrc_uri := some { resource := "/" }, volume_name := "" }
      = (lsfs_xtreemfs.Outcome.returned 0, "vol1  ->  abc\n") :=
  (short_listing_output sample_lsvol
      { long_listing := false, mrc_uri := some { resource := "/" }, volume_name := "" }
      { resource := "/" } [vol1] rfl rfl rfl).2.2.2 rfl

/-- C4: when long listing is on and the service returns `volumes`, `_main` returns 0
and writes one block per volume, in the order of the set; a block is the line
`Volume '<name>'`, a line of dashes, the four lines "\tID:       <id>",
"\tOwner:    <owner user id>", "\tGroup:    <owner group id>" and
"\tAccess:   <mode>" in this order, and one empty line. -/
theorem long_listing_output
    (xtreemfs_lsvol : lsfs_xtreemfs.URI → Except lsfs_xtreemfs.Thrown lsfs_xtreemfs.VolumeSet)
    (self : lsfs_xtreemfs.Main) (uri : lsfs_xtreemfs.URI) (volumes : lsfs_xtreemfs.VolumeSet)
    (hlong : self.long_listing = true) (huri : self.mrc_uri = some uri)
    (hvolumes : xtreemfs_lsvol uri = Except.ok volumes) :
    ∃ dash_count : lsfs_xtreemfs.Volume → Nat,
      lsfs_xtreemfs.Main._main xtreemfs_lsvol self
        = (lsfs_xtreemfs.Outcome.returned 0,
            String.join (volumes.map (fun volume_i =>
              "Volume '" ++ volume_i.name ++ "'" ++ "\n"
              ++ String.mk (List.replicate (dash_count volume_i) '-') ++ "\n"
              ++ "\tID:       " ++ volume_i.id ++ "\n"
              ++ "\tOwner:    " ++ volume_i.owner_user_id ++ "\n"
              ++ "\tGroup:    " ++ volume_i.owner_group_id ++ "\n"
              ++ "\tAccess:   " ++ Nat.repr volume_i.mode ++ "\n"
              ++ "\n"))) := by
  have hmain := main_returned xtreemfs_lsvol self uri volumes huri hvolumes
  rw [hlong] at hmain
  have hfun : lsfs_xtreemfs.Main.volume_str true = fun volume_i =>
      "Volume '" ++ volume_i.name ++ "'" ++ "\n"
      ++ String.mk (List.replicate (("Volume '" ++ volume_i.name ++ "'").length + 1) '-') ++ "\n"
      ++ "\tID:       " ++ volume_i.id ++ "\n"
      ++ "\tOwner:    " ++ volume_i.owner_user_id ++ "\n"
      ++ "\tGroup:    " ++ volume_i.owner_group_id ++ "\n"
      ++ "\tAccess:   " ++ Nat.repr volume_i.mode ++ "\n"
      ++ "\n" := by
    funext volume_i
    exact volume_str_long_eq volume_i
  rw [hfun] at hmain
  exact ⟨fun volume_i => ("Volume '" ++ volume_i.name ++ "'").length + 1, hmain⟩

/-- The theorem `long_listing_output` applied to a service that returns the volume of
scenario C. -/
theorem long_listing_output_witness :
    ∃ dash_count : lsfs_xtreemfs.Volume → Nat,
      lsfs_xtreemfs.Main._main sample_lsvol
          { long_listing := true, mrc_uri := some { resource := "/" }, volume_name := "" }
        = (lsfs_xtreemfs.Outcome.returned 0,
            String.join ([vol1].map (fun volume_i =>
              "Volume '" ++ volume_i.name ++ "'" ++ "\n"
              ++ String.mk (List.replicate (dash_count volume_i) '-') ++ "\n"
              ++ "\tID:       " ++ volume_i.id ++ "\n"
              ++ "\tOwner:    " ++ volume_i.owner_user_id ++ "\n"
              ++ "\tGroup:    " ++ volume_i.owner_group_id ++ "\n"
              ++ "\tAccess:   " ++ Nat.repr volume_i.mode ++ "\n"
              ++ "\n"))) :=
  long_listing_output sample_lsvol
    { long_listing := true, mrc_uri := some { resource := "/" }, volume_name := "" }
    { resource := "/" } [vol1] rfl rfl rfl

/-- C5: when the first location parses to a URI whose resource path has length 0 or
1, `parseFiles` returns without throwing; it stores the URI and leaves `volume_name`
as it was, which on the object built by `Main()` (with or without the option for long
listing) is the empty string. -/
theorem parseFiles_root_only_resource
    (parseURI : String → Except lsfs_xtreemfs.Thrown lsfs_xtreemfs.URI)
    (files_0 : String) (more_files : List String) (uri : lsfs_xtreemfs.URI)
    (hparse : parseURI files_0 = Except.ok uri) (hlen : uri.get_resource.length ≤ 1) :
    (∀ self : lsfs_xtreemfs.Main,
        lsfs_xtreemfs.Main.parseFiles parseURI (files_0 :: more_files) self
          = (lsfs_xtreemfs.Outcome.returned (), { self with mrc_uri := some uri }))
    ∧ (∀ long_listing : Bool,
        lsfs_xtreemfs.Main.parseFiles parseURI (files_0 :: more_files)
            { lsfs_xtreemfs.Main.new with long_listing := long_listing }
          = (lsfs_xtreemfs.Outcome.returned (),
              { long_listing := long_listing, mrc_uri := some uri, volume_name := "" })) := by
  have hnot : ¬ uri.get_resource.length > 1 := by omega
  have hgen : ∀ self : lsfs_xtreemfs.Main,
      lsfs_xtreemfs.Main.parseFiles parseURI (files_0 :: more_files) self
        = (lsfs_xtreemfs.Outcome.returned (), { self with mrc_uri := some uri }) := by
    intro self
    simp only [lsfs_xtreemfs.Main.parseFiles, hparse, hnot, if_false]
  refine ⟨hgen, ?_⟩
  intro long_listing
  rw [hgen]
  rfl

/-- The theorem `parseFiles_root_only_resource` applied to the location "/". -/
theorem parseFiles_root_only_resource_witness :
    sample_parseURI "/" = Except.ok { resource := "/" }
    ∧ (lsfs_xtreemfs.URI.get_resource { resource := "/" }).length ≤ 1
    ∧ lsfs_xtreemfs.Main.parseFiles sample_parseURI ["/"] lsfs_xtreemfs.Main.new
        = (lsfs_xtreemfs.Outcome.returned (),
            { long_listing := false, mrc_uri := some { resource := "/" }, volume_name := "" }) :=
  ⟨rfl, by decide,
    (parseFiles_root_only_resource sample_parseURI "/" [] { resource := "/" } rfl
      (by decide)).2 false⟩

/-- C10: when the first location parses to a URI whose resource path is longer than
one char (and, being text of a NUL-terminated argument, holds no NUL), `parseFiles`
returns, stores the URI and sets `volume_name` to the resource path without its first
char; the locations after the first have no influence on the result. -/
theorem parseFiles_sets_volume_name
    (parseURI : String → Except lsfs_xtreemfs.Thrown lsfs_xtreemfs.URI)
    (files_0 : String) (more_files : List String) (uri : lsfs_xtreemfs.URI)
    (self : lsfs_xtreemfs.Main)
    (hparse : parseURI files_0 = Except.ok uri) (hlen : uri.get_resource.length > 1)
    (hnul : '\x00' ∉ uri.get_resource.data) :
    lsfs_xtreemfs.Main.parseFiles parseURI (files_0 :: more_files) self
        = (lsfs_xtreemfs.Outcome.returned (),
            { self with mrc_uri := some uri, volume_name := uri.get_resource.drop 1 })
    ∧ ∀ other_files : List String,
        lsfs_xtreemfs.Main.parseFiles parseURI (files_0 :: other_files) self
          = lsfs_xtreemfs.Main.parseFiles parseURI (files_0 :: more_files) self := by
  constructor
  · simp only [lsfs_xtreemfs.Main.parseFiles, hparse, hlen, if_true,
      string_from_ptr_c_str_one _ hlen hnul]
  · intro other_files
    simp only [lsfs_xtreemfs.Main.parseFiles]

/-- The theorem `parseFiles_sets_volume_name` applied to the locations "/vol1" and
"/other": the volume name becomes "vol1". -/
theorem parseFiles_sets_volume_name_witness :
    sample_parseURI "/vol1" = Except.ok { resource := "/vol1" }
    ∧ (lsfs_xtreemfs.URI.get_resource { resource := "/vol1" }).length > 1
    ∧ '\x00' ∉ (lsfs_xtreemfs.URI.get_resource { resource := "/vol1" }).data
    ∧ lsfs_xtreemfs.Main.parseFiles sample_parseURI ["/vol1", "/other"] lsfs_xtreemfs.Main.new
        = (lsfs_xtreemfs.Outcome.returned (),
            { long_listing := false, mrc_uri := some { resource := "/vol1" },
              volume_name := "vol1" }) :=
  ⟨rfl, by decide, by decide,
    (parseFiles_sets_volume_name sample_parseURI "/vol1" ["/other"] { resource := "/vol1" }
      lsfs_xtreemfs.Main.new rfl (by decide) (by decide)).1.trans (by decide)⟩
